import Mathlib

/-!
Verification of gnssmapper/observations.py against its specification.

The module is embedded shallowly:
* `filter_elevation` (source lines 105-127) is embedded over exact rationals
  (machine floats are rationals), generic in the row type and in the elevation
  function, with the numpy semantics of the Python chained comparison
  `lb <= e <= ub` on an array modelled faithfully by `npBoolTruthy` and
  `npChainedLe`.
* the constellation handling of `observe` (source lines 43-52) is embedded by
  `observePrelim`; the external validator `cm.check.constellations` is
  modelled from the spec.
* the merge step of `observe` (source lines 55-61) is embedded at the level of
  dataframe column names, with the pandas default-merge key resolution
  modelled by `mergeDefaultKeys`.
* `elevation` (source lines 130-152) and `rays` (source lines 93-102) are
  embedded over the reals; the pyproj coordinate transforms they consume are
  external collaborators, so the embeddings take the transform outputs
  (geocentric coordinates, latitude/longitude in degrees) as arguments.
* `to_crs_3d` (source lines 154-182) is embedded with the pyproj transformer
  as a function argument applied pointwise to full 3D coordinates, exactly as
  `shapely.ops.transform` applies it.
-/

/-! ## Elevation filter (source lines 105-127), over exact rationals -/

/-- The message of the ValueError raised by the bounds check at source
lines 122-124. -/
def invalidBoundsMsg : String :=
  "Invalid elevation bounds. Must be between 0 and 90 degrees"

/-- The message of the ValueError numpy raises when `bool()` is taken of an
array with more than one element, as happens in the chained comparison at
source line 127. -/
def numpyTruthMsg : String :=
  "The truth value of an array with more than one element is ambiguous"

/-- numpy truthiness of a boolean array: an empty array is falsy, a
one-element array has the truth value of its element, and a larger array
raises ValueError. -/
def npBoolTruthy : List Bool → Except String Bool
  | [] => Except.ok false
  | [b] => Except.ok b
  | _ => Except.error numpyTruthMsg

/-- Python evaluation of the chained comparison `lb <= e <= ub` when `e` is a
numpy array: it means `(lb <= e) and (e <= ub)`, where `and` takes the
truthiness of the first (elementwise) comparison and returns the first array
when falsy and the second when truthy. -/
def npChainedLe (lb : ℚ) (e : List ℚ) (ub : ℚ) : Except String (List Bool) :=
  match npBoolTruthy (e.map (fun x => decide (lb ≤ x))) with
  | Except.error m => Except.error m
  | Except.ok b =>
    if b then Except.ok (e.map (fun x => decide (x ≤ ub)))
    else Except.ok (e.map (fun x => decide (lb ≤ x)))

/-- Boolean-mask row selection, `observations.loc[mask, :]`. -/
def locMask {α : Type} (rows : List α) (mask : List Bool) : List α :=
  (rows.zip mask).filterMap (fun p => if p.2 then some p.1 else none)

/-- Embedding of `filter_elevation` (source lines 105-127): validate the
bounds, compute the elevation array, select rows with the chained comparison
`lb <= e <= ub`. Generic in the row type `α` and the elevation computation
`elev` (the source computes it from the geometry via `elevation`). -/
def filter_elevation {α : Type} (elev : α → ℚ) (observations : List α)
    (lb ub : ℚ) : Except String (List α) :=
  if ¬ (0 ≤ lb ∧ lb ≤ ub ∧ ub ≤ 90) then
    Except.error invalidBoundsMsg
  else
    match npChainedLe lb (observations.map elev) ub with
    | Except.error m => Except.error m
    | Except.ok mask => Except.ok (locMask observations mask)

/-- The elevation filter as the spec words it: return exactly the subset of
rows whose elevation lies in the inclusive interval [lb, ub]. -/
def filter_elevation_spec {α : Type} (elev : α → ℚ) (observations : List α)
    (lb ub : ℚ) : Except String (List α) :=
  if ¬ (0 ≤ lb ∧ lb ≤ ub ∧ ub ≤ 90) then
    Except.error invalidBoundsMsg
  else
    Except.ok (observations.filter (fun o => decide (lb ≤ elev o) && decide (elev o ≤ ub)))

/-! ## Constellation handling of `observe` (source lines 43-52) -/

/-- The message of the ValueError raised at source lines 49-50. -/
def cannotInferMsg : String :=
  "Supported constellations cannot be inferred from receiverpoints and must be supplied"

/-- Modelled from the spec: the external validator
`cm.check.constellations(set, supported_set)` fails with a descriptive
validation error if the shape/type contract is violated, i.e. if the set
contains a constellation prefix outside the supported set. -/
def check_constellations (cs supported : Finset Char) : Except String Unit :=
  if cs ⊆ supported then Except.ok () else Except.error "unsupported constellations"

/-- `set(points['svid'].str[0].unique())` at source line 45: the set of
distinct first characters of the svid strings.  (The receiverpoints validator
guarantees well-formed non-empty svid strings, so taking `head?` is exact.) -/
def measuredConstellations (svids : List String) : Finset Char :=
  (svids.filterMap (fun s => s.toList.head?)).toFinset

/-- Embedding of the preliminary phase of `observe` (source lines 43-52):
validate the caller-supplied constellations against the supported set, then,
if none were supplied, infer them from the svid column or fail.  An
`Except.ok c` result means `observe` proceeds to the satellite lookup with
constellation set `c`; an `Except.error` result means the call terminates
before any satellite lookup. -/
def observePrelim (supported constellations : Finset Char) (svids : List String) :
    Except String (Finset Char) :=
  match check_constellations constellations supported with
  | Except.error m => Except.error m
  | Except.ok _ =>
    if constellations = ∅ then
      if measuredConstellations svids = ∅ then
        Except.error cannotInferMsg
      else
        Except.ok (measuredConstellations svids)
    else
      Except.ok constellations

/-! ## The merge step of `observe` (source lines 55-61), at column level -/

/-- The message of the pandas MergeError raised by `DataFrame.merge` when
`on` is not given, no index flags are set, and the two frames share no
column name. -/
def noCommonColsMsg : String := "No common columns to perform merge on"

/-- Key resolution of `left.merge(right)` with all-default arguments: the
join keys default to the intersection of the two column lists (index levels
are not considered); an empty intersection raises MergeError. -/
def mergeDefaultKeys (leftCols rightCols : List String) : Except String (List String) :=
  let common := leftCols.filter (fun c => decide (c ∈ rightCols))
  if common = [] then Except.error noCommonColsMsg else Except.ok common

/-- Columns of `sats` at source line 61, after
`sats.set_index(['time', 'svid'])`: `locate_satellites` returns positions
`sv_x, sv_y, sv_z` per `(svid, gps_time)` (spec section 6), `_get_satellites`
adds `time`, and `set_index` moves `time` and `svid` into the index. -/
def satsCols : List String := ["gps_time", "sv_x", "sv_y", "sv_z"]

/-- Columns of `receiver` at source line 61: the receiverpoints columns
(geometry, time, svid, and the pass-through signal columns), with `time` and
`svid` moved into the index by `set_index` and `x, y, z` added by `assign`. -/
def receiverCols (signals : List String) : List String :=
  "geometry" :: (signals ++ ["x", "y", "z"])

/-- Embedding of the key resolution of `obs = receiver.merge(sats)` at source
line 61, as a function of the pass-through signal column names. -/
def observeMergeStep (signals : List String) : Except String (List String) :=
  mergeDefaultKeys (receiverCols signals) satsCols

/-! ## 3D vector geometry over the reals -/

/-- A 3D coordinate triple `(x, y, z)`. -/
abbrev Point3 : Type := ℝ × ℝ × ℝ

/-- Componentwise difference `v - w`. -/
def sub3 (v w : Point3) : Point3 := (v.1 - w.1, v.2.1 - w.2.1, v.2.2 - w.2.2)

/-- Componentwise sum `v + w`. -/
def add3 (v w : Point3) : Point3 := (v.1 + w.1, v.2.1 + w.2.1, v.2.2 + w.2.2)

/-- Scalar multiple `c * v`. -/
def smul3 (c : ℝ) (v : Point3) : Point3 := (c * v.1, c * v.2.1, c * v.2.2)

/-- Euclidean inner product. -/
def dot3 (v w : Point3) : ℝ := v.1 * w.1 + v.2.1 * w.2.1 + v.2.2 * w.2.2

/-- Euclidean norm, `np.linalg.norm`. -/
noncomputable def norm3 (v : Point3) : ℝ :=
  Real.sqrt (v.1 ^ 2 + v.2.1 ^ 2 + v.2.2 ^ 2)

/-- `delta / np.linalg.norm(delta)` at source line 139: componentwise
division by the norm. -/
noncomputable def normalize3 (v : Point3) : Point3 :=
  (v.1 / norm3 v, v.2.1 / norm3 v, v.2.2 / norm3 v)

/-! ## Elevation calculator (source lines 130-152) -/

/-- The local up unit vector at source lines 143-148: latitude and longitude
arrive in degrees (the first two coordinates of the receiver endpoint in the
geographic CRS) and are converted with `np.radians`, i.e. multiplied by
pi/180. -/
noncomputable def upVec (lat lon : ℝ) : Point3 :=
  (Real.cos (lon * Real.pi / 180) * Real.cos (lat * Real.pi / 180),
   Real.sin (lon * Real.pi / 180) * Real.cos (lat * Real.pi / 180),
   Real.sin (lat * Real.pi / 180))

/-- Embedding of `elevation` (source lines 130-152) for one two-point line.
The pyproj reprojections of the line into geocentric Cartesian and geographic
coordinates are external collaborators, so the embedding takes their outputs:
`rx`/`sx` are the receiver and satellite endpoints in geocentric Cartesian
coordinates, `lat`/`lon` the receiver endpoint in geographic coordinates
(degrees).  The formula is `np.degrees(np.arcsin(inner))` with `inner` the
inner product of the normalized line-of-sight vector and the up vector. -/
noncomputable def elevation (rx sx : Point3) (lat lon : ℝ) : ℝ :=
  Real.arcsin (dot3 (normalize3 (sub3 sx rx)) (upVec lat lon)) * 180 / Real.pi

/-- The elevation formula as the spec words it (spec section 4.2):
`degrees(asin(dot(delta, up)))` with `delta = normalize(satellite_xyz -
receiver_xyz)` and `up = (cos(lon)*cos(lat), sin(lon)*cos(lat), sin(lat))`
at the receiver latitude/longitude. -/
noncomputable def elevation_spec_formula (rx sx : Point3) (lat lon : ℝ) : ℝ :=
  Real.arcsin (dot3 (normalize3 (sub3 sx rx)) (upVec lat lon)) * 180 / Real.pi

/-! ## Ray builder (source lines 93-102) -/

open Classical in
/-- `pygeos.linear.line_interpolate_point` on a two-point line from `r` to
`s`: the point at (absolute) distance `t` along the line, measured from the
start for `t >= 0` and from the end for `t < 0`, clamped to the endpoints. -/
noncomputable def line_interpolate_point (r s : Point3) (t : ℝ) : Point3 :=
  if norm3 (sub3 s r) ≤ t then s
  else if 0 ≤ t then add3 r (smul3 (t / norm3 (sub3 s r)) (sub3 s r))
  else if norm3 (sub3 s r) + t ≤ 0 then r
  else add3 r (smul3 ((norm3 (sub3 s r) + t) / norm3 (sub3 s r)) (sub3 s r))

/-- Embedding of `rays` (source lines 93-102): build the full receiver-to-
satellite lines, interpolate each at distance `rayLength`, and rebuild each
line from the receiver point and the interpolated point.  A two-point
linestring is embedded as the pair of its endpoints. -/
noncomputable def rays (rayLength : ℝ) (receivers sats : List Point3) :
    List (Point3 × Point3) :=
  let lines := List.zipWith (fun r s => (r, s)) receivers sats
  let short := lines.map (fun l => line_interpolate_point l.1 l.2 rayLength)
  List.zipWith (fun r p => (r, p)) receivers short

/-! ## CRS reprojector (source lines 154-182) -/

/-- A geometry series: a CRS tag and a list of geometries, each a list of 3D
points (a point geometry is a one-point list, a linestring its list of
vertices). -/
structure GeoSeries3D where
  crs : String
  geoms : List (List Point3)

/-- Embedding of `to_crs_3d` (source lines 154-182) on a geometry series.
`validCrs` models the external validator `cm.check.crs`; `tr src dst` is the
pyproj transformer from CRS `src` to CRS `dst`, applied by
`shapely.ops.transform` to every coordinate triple of every geometry with the
Z coordinate passed through the transform (never dropped).  The target CRS is
checked first, then the source CRS, as at source lines 172-174.  (On a
GeoDataFrame the source delegates to this same per-series transform and
reattaches the result.) -/
def to_crs_3d (validCrs : String → Bool) (tr : String → String → Point3 → Point3)
    (g : GeoSeries3D) (target : String) : Except String GeoSeries3D :=
  if ¬ validCrs target then Except.error "invalid target crs"
  else if ¬ validCrs g.crs then Except.error "invalid source crs"
  else Except.ok ⟨target, g.geoms.map (List.map (tr g.crs target))⟩

/-! ## Concrete fixtures used by the witness theorems -/

/-- A CRS validator accepting every CRS, for the round-trip witness. -/
def wValid : String → Bool := fun _ => true

/-- A concrete invertible coordinate transform for the round-trip witness:
from CRS "A" it shifts x by one, from any other CRS it shifts x back. -/
def wTr : String → String → Point3 → Point3 :=
  fun src _ p => if src = "A" then (p.1 + 1, p.2.1, p.2.2) else (p.1 - 1, p.2.1, p.2.2)

/-- A concrete two-point 3D geometry series in CRS "A". -/
def wSeries : GeoSeries3D := ⟨"A", [[((0 : ℝ), 0, 0), ((1 : ℝ), 2, 3)]]⟩

/-! ## Helper lemmas -/

theorem npBoolTruthy_error_msg {xs : List Bool} {m : String}
    (h : npBoolTruthy xs = Except.error m) : m = numpyTruthMsg := by
  match xs with
  | [] => simp [npBoolTruthy] at h
  | [b] => simp [npBoolTruthy] at h
  | a :: b :: rest =>
    simp only [npBoolTruthy, Except.error.injEq] at h
    exact h.symm

theorem npChainedLe_error_msg {lb ub : ℚ} {e : List ℚ} {m : String}
    (h : npChainedLe lb e ub = Except.error m) : m = numpyTruthMsg := by
  unfold npChainedLe at h
  cases hb : npBoolTruthy (e.map (fun x => decide (lb ≤ x))) with
  | error m2 =>
    rw [hb] at h
    simp only [Except.error.injEq] at h
    rw [← h]
    exact npBoolTruthy_error_msg hb
  | ok b =>
    rw [hb] at h
    by_cases hb2 : b = true
    · simp [hb2] at h
    · simp [hb2] at h

/-! ## Claim theorems -/

/-- Claim C1 (code bug): `filter_elevation` is meant to return exactly the
subset of rows whose elevation lies in [lb, ub], but the chained comparison
`lb <= e <= ub` at source line 127 takes the truth value of a numpy array:
for any observation set with at least two rows it raises
ValueError("The truth value of an array ...") instead of filtering.  At the
concrete two-row input with elevations 10 and 20 and default bounds 0, 90 the
code errors while the specified filter keeps both rows. -/
theorem filter_elevation_chained_comparison_bug :
    filter_elevation (fun x : ℚ => x) [(10 : ℚ), 20] 0 90 = Except.error numpyTruthMsg ∧
    filter_elevation_spec (fun x : ℚ => x) [(10 : ℚ), 20] 0 90 = Except.ok [10, 20] :=
  ⟨rfl, rfl⟩

/-- Claim C2 (counterexample to the claim as stated): with perfectly valid
bounds lb = 0, ub = 90 and a two-row observation set, `filter_elevation`
still raises a ValueError (the numpy array-truthiness error, a different
message than the bounds error), so "raises a ValueError if and only if the
bounds are out of range or inverted" fails in the only-if direction. -/
theorem filter_elevation_valid_bounds_still_error :
    (0 ≤ (0 : ℚ) ∧ (0 : ℚ) ≤ 90 ∧ (90 : ℚ) ≤ 90) ∧
    filter_elevation (fun x : ℚ => x) [(30 : ℚ), 40] 0 90 = Except.error numpyTruthMsg ∧
    numpyTruthMsg ≠ invalidBoundsMsg :=
  ⟨by norm_num, rfl, by decide⟩

/-- Claim C2 (amended): `filter_elevation` raises the bounds-validation
ValueError ("Invalid elevation bounds...") exactly when the bounds are out of
range or inverted, i.e. when not 0 ≤ lb ≤ ub ≤ 90, and that error does not
depend on the observations or their elevations (it is raised before any
elevation is compared, for every input and every elevation function). -/
theorem filter_elevation_bounds_error_iff {α : Type} (elev : α → ℚ)
    (observations : List α) (lb ub : ℚ) :
    filter_elevation elev observations lb ub = Except.error invalidBoundsMsg ↔
      ¬ (0 ≤ lb ∧ lb ≤ ub ∧ ub ≤ 90) := by
  constructor
  · intro he hcon
    rw [filter_elevation, if_neg (not_not_intro hcon)] at he
    cases hnp : npChainedLe lb (observations.map elev) ub with
    | error m =>
      rw [hnp] at he
      injection he with hmm
      rw [npChainedLe_error_msg hnp] at hmm
      exact absurd hmm (by decide)
    | ok mask =>
      rw [hnp] at he
      exact Except.noConfusion he
  · intro hb
    rw [filter_elevation, if_pos hb]

/-- Claim C5: when `observe` is called without an explicit constellations
argument (the empty default) and the svid column yields a non-empty set of
first characters, the constellation set used for the satellite lookup is
exactly the set of distinct first characters of the svid values. -/
theorem observe_infers_constellations (supported : Finset Char) (svids : List String)
    (h : measuredConstellations svids ≠ ∅) :
    observePrelim supported ∅ svids = Except.ok (measuredConstellations svids) ∧
    ∀ c : Char, c ∈ measuredConstellations svids ↔
      ∃ s ∈ svids, s.toList.head? = some c := by
  constructor
  · unfold observePrelim check_constellations
    rw [if_pos (Finset.empty_subset supported)]
    simp [h]
  · intro c
    unfold measuredConstellations
    simp [List.mem_filterMap]

/-- Witness for C5 at the spec's concrete example: svids "G01", "G02", "R03"
with no explicit constellations argument infer the set consisting of the
characters G and R. -/
theorem observe_infers_constellations_witness :
    observePrelim {'G', 'R', 'E', 'C'} ∅ ["G01", "G02", "R03"] =
      Except.ok ({'G', 'R'} : Finset Char) := by
  have h := observe_infers_constellations {'G', 'R', 'E', 'C'} ["G01", "G02", "R03"]
    (by decide)
  rw [h.1]
  rfl

/-- Claim C6: for a receiverpoints input containing no svid values and no
explicit constellations argument, `observe` raises
ValueError("Supported constellations cannot be inferred ...") in its
preliminary phase: the result is an error, so the call terminates before any
satellite lookup is performed. -/
theorem observe_no_svids_error (supported : Finset Char) :
    observePrelim supported ∅ [] = Except.error cannotInferMsg := by
  unfold observePrelim check_constellations
  rw [if_pos (Finset.empty_subset supported)]
  rfl

/-- Claim C10: the check of the constellations argument against the
supported set happens before inference and is never re-applied to the
inferred set: for any input whose svid first characters form a non-empty set
lying (even entirely) outside the supported set, `observe` with the default
empty constellations argument proceeds to the satellite lookup with the
unvalidated inferred set and raises no validation error. -/
theorem observe_inferred_not_validated (supported : Finset Char) (svids : List String)
    (h : measuredConstellations svids ≠ ∅)
    (hout : ¬ measuredConstellations svids ⊆ supported) :
    observePrelim supported ∅ svids = Except.ok (measuredConstellations svids) := by
  unfold observePrelim check_constellations
  rw [if_pos (Finset.empty_subset supported)]
  simp [h]

/-- Witness for C10: svid "X01" has prefix X outside the supported set
consisting of G alone, yet `observe` proceeds with the inferred set. -/
theorem observe_inferred_not_validated_witness :
    observePrelim {'G'} ∅ ["X01"] = Except.ok ({'X'} : Finset Char) := by
  have h := observe_inferred_not_validated {'G'} ["X01"] (by decide) (by decide)
  rw [h]
  rfl

/-- Claim C8 (code bug): the spec says `observe` joins receiver and satellite
positions on (time, svid), and the code moves time and svid into the index of
both frames to that end, but `receiver.merge(sats)` at source line 61 uses the
pandas default key resolution, which only considers columns: whenever the
pass-through signal columns share no name with the satellite position columns
(the normal case), the column intersection is empty and pandas raises
MergeError("No common columns to perform merge on") instead of joining. -/
theorem observe_merge_no_common_columns (signals : List String)
    (h : ∀ c ∈ signals, c ∉ satsCols) :
    observeMergeStep signals = Except.error noCommonColsMsg := by
  unfold observeMergeStep mergeDefaultKeys receiverCols
  have hf : (("geometry" :: (signals ++ ["x", "y", "z"])).filter
      (fun c => decide (c ∈ satsCols))) = [] := by
    rw [List.filter_eq_nil_iff]
    intro a ha
    simp only [List.mem_cons, List.mem_append] at ha
    rcases ha with rfl | ha | ha
    · decide
    · simpa using h a ha
    · simp only [List.mem_cons, List.not_mem_nil, or_false] at ha
      rcases ha with rfl | rfl | rfl <;> decide
  simp [hf]

/-- Witness for C8: with the single signal column Cn0DbHz the merge step
raises the MergeError. -/
theorem observe_merge_no_common_columns_witness :
    observeMergeStep ["Cn0DbHz"] = Except.error noCommonColsMsg :=
  observe_merge_no_common_columns ["Cn0DbHz"] (by decide)

/-! ## Geometry helper lemmas -/

theorem sub3_add3_cancel (r v : Point3) : sub3 (add3 r v) r = v := by
  rcases r with ⟨r1, r2, r3⟩
  rcases v with ⟨v1, v2, v3⟩
  unfold sub3 add3
  simp only [Prod.mk.injEq]
  refine ⟨by ring, by ring, by ring⟩

theorem norm3_smul3 (c : ℝ) (v : Point3) : norm3 (smul3 c v) = |c| * norm3 v := by
  rcases v with ⟨x, y, z⟩
  unfold norm3 smul3
  simp only
  rw [show (c * x) ^ 2 + (c * y) ^ 2 + (c * z) ^ 2 = c ^ 2 * (x ^ 2 + y ^ 2 + z ^ 2) by ring]
  rw [Real.sqrt_mul (sq_nonneg c), Real.sqrt_sq_eq_abs]

theorem map_map_inv (f g : Point3 → Point3) (gs : List (List Point3))
    (h : ∀ p ∈ gs.flatten, g (f p) = p) :
    (gs.map (List.map f)).map (List.map g) = gs := by
  rw [List.map_map]
  conv_rhs => rw [← List.map_id gs]
  apply List.map_congr_left
  intro l hl
  simp only [Function.comp_apply, List.map_map, id_eq]
  conv_rhs => rw [← List.map_id l]
  apply List.map_congr_left
  intro p hp
  exact h p (List.mem_flatten.mpr ⟨l, hl, hp⟩)

/-! ## Claim theorems for the real-valued components -/

/-- Claim C3: the elevation computed from a two-point line is
degrees(asin(dot(delta, up))) with delta the normalized receiver-to-satellite
vector and up the spherical-normal unit vector at the receiver latitude and
longitude (the embedded source formula coincides with the spec formula
definitionally); consequently a receiver at the geocentric North Pole
position (0, 0, R) at latitude 90 with a satellite directly above along the
polar axis at (0, 0, R + h), h > 0, sees elevation 90 degrees, and a
satellite in the orthogonal direction (d, 0, R), d ≠ 0, sees elevation 0
degrees, for every longitude. -/
theorem elevation_northpole (R h d lon : ℝ) (hh : 0 < h) (hd : d ≠ 0) :
    elevation (0, 0, R) (0, 0, R + h) 90 lon = 90 ∧
    elevation (0, 0, R) (d, 0, R) 90 lon = 0 ∧
    elevation = elevation_spec_formula := by
  have h90 : (90 : ℝ) * Real.pi / 180 = Real.pi / 2 := by ring
  have hup : upVec 90 lon = (Real.cos (lon * Real.pi / 180) * 0,
      Real.sin (lon * Real.pi / 180) * 0, 1) := by
    unfold upVec
    rw [h90, Real.cos_pi_div_two, Real.sin_pi_div_two]
  refine ⟨?_, ?_, rfl⟩
  · have hsub : sub3 ((0 : ℝ), (0 : ℝ), R + h) ((0 : ℝ), (0 : ℝ), R) = (0, 0, h) := by
      unfold sub3
      norm_num
    have hnorm : norm3 ((0 : ℝ), (0 : ℝ), h) = h := by
      unfold norm3
      norm_num
      exact Real.sqrt_sq hh.le
    have hnormz : normalize3 ((0 : ℝ), (0 : ℝ), h) = (0, 0, 1) := by
      unfold normalize3
      rw [hnorm]
      norm_num [div_self hh.ne']
    unfold elevation
    rw [hsub, hnormz, hup]
    have hdot : dot3 ((0 : ℝ), (0 : ℝ), 1) (Real.cos (lon * Real.pi / 180) * 0,
        Real.sin (lon * Real.pi / 180) * 0, 1) = 1 := by
      unfold dot3
      ring
    rw [hdot, Real.arcsin_one]
    field_simp
    ring
  · have hsub : sub3 ((d : ℝ), (0 : ℝ), R) ((0 : ℝ), (0 : ℝ), R) = (d, 0, 0) := by
      unfold sub3
      norm_num
    unfold elevation
    rw [hsub, hup]
    have hdot : dot3 (normalize3 ((d : ℝ), (0 : ℝ), (0 : ℝ)))
        (Real.cos (lon * Real.pi / 180) * 0, Real.sin (lon * Real.pi / 180) * 0, 1) = 0 := by
      unfold normalize3 dot3
      norm_num
    rw [hdot, Real.arcsin_zero]
    simp

/-- Witness for C3 at the concrete North Pole configuration R = 1, h = 1,
d = 1, longitude 0. -/
theorem elevation_northpole_witness :
    elevation ((0 : ℝ), 0, 1) ((0 : ℝ), 0, 2) 90 0 = 90 ∧
    elevation ((0 : ℝ), 0, 1) ((1 : ℝ), 0, 1) 90 0 = 0 := by
  have h := elevation_northpole 1 1 1 0 (by norm_num) (by norm_num)
  have h1 := h.1
  have h2 := h.2.1
  norm_num at h1
  exact ⟨h1, h2⟩

/-- Claim C4: `rays` outputs, for each (receiver, satellite) pair, a line
starting at the receiver point; when the true receiver-satellite distance
exceeds the configured ray length the output line is the positive scalar
rescaling of the full line to length exactly the ray length (same direction,
length equal to rayLength); when the true distance is at most the ray length
the interpolation clamps to the original satellite endpoint, so the output
equals the original line. -/
theorem rays_truncation (r s : Point3) (t : ℝ) (ht : 0 < t) :
    rays t [r] [s] = [(r, line_interpolate_point r s t)] ∧
    (t < norm3 (sub3 s r) →
      sub3 (line_interpolate_point r s t) r = smul3 (t / norm3 (sub3 s r)) (sub3 s r) ∧
      0 < t / norm3 (sub3 s r) ∧
      norm3 (sub3 (line_interpolate_point r s t) r) = t) ∧
    (norm3 (sub3 s r) ≤ t → line_interpolate_point r s t = s) := by
  refine ⟨rfl, ?_, ?_⟩
  · intro hlt
    have hL : 0 < norm3 (sub3 s r) := ht.trans hlt
    have hbranch : line_interpolate_point r s t =
        add3 r (smul3 (t / norm3 (sub3 s r)) (sub3 s r)) := by
      unfold line_interpolate_point
      rw [if_neg (not_le.mpr hlt), if_pos ht.le]
    refine ⟨?_, div_pos ht hL, ?_⟩
    · rw [hbranch, sub3_add3_cancel]
    · rw [hbranch, sub3_add3_cancel, norm3_smul3, abs_of_pos (div_pos ht hL)]
      exact div_mul_cancel₀ t hL.ne'
  · intro hle
    unfold line_interpolate_point
    rw [if_pos hle]

/-- Witness for C4: receiver at the origin, satellite at distance 3 on the x
axis, ray length 1: the output starts at the receiver and has length 1. -/
theorem rays_truncation_witness :
    rays 1 [((0 : ℝ), 0, 0)] [((3 : ℝ), 0, 0)] =
      [(((0 : ℝ), 0, 0), line_interpolate_point ((0 : ℝ), 0, 0) ((3 : ℝ), 0, 0) 1)] ∧
    norm3 (sub3 (line_interpolate_point ((0 : ℝ), 0, 0) ((3 : ℝ), 0, 0) 1) ((0 : ℝ), 0, 0)) = 1 := by
  have h := rays_truncation ((0 : ℝ), 0, 0) ((3 : ℝ), 0, 0) 1 (by norm_num)
  have hs : sub3 ((3 : ℝ), 0, 0) ((0 : ℝ), 0, 0) = ((3 : ℝ), 0, 0) := by
    unfold sub3
    norm_num
  have hn : norm3 (sub3 ((3 : ℝ), 0, 0) ((0 : ℝ), 0, 0)) = 3 := by
    rw [hs]
    unfold norm3
    norm_num
    rw [show (9 : ℝ) = 3 ^ 2 by norm_num, Real.sqrt_sq (by norm_num : (0 : ℝ) ≤ 3)]
  exact ⟨h.1, (h.2.1 (by rw [hn]; norm_num)).2.2⟩

/-- Claim C7: reprojecting a 3D geometry series with valid source CRS A to a
valid CRS B and back to A returns the original collection, with the Z
coordinate of every point carried through both transforms: the forward result
applies the full 3D transform to every coordinate triple (never dropping Z),
and when the backward transform inverts the forward one on the collection
coordinates (exact arithmetic standing in for floating tolerance) the round
trip is the identity. -/
theorem to_crs_3d_roundtrip (validCrs : String → Bool)
    (tr : String → String → Point3 → Point3) (g : GeoSeries3D) (B : String)
    (hA : validCrs g.crs = true) (hB : validCrs B = true)
    (hinv : ∀ p ∈ g.geoms.flatten, tr B g.crs (tr g.crs B p) = p) :
    ∃ g' : GeoSeries3D,
      to_crs_3d validCrs tr g B = Except.ok g' ∧
      g'.crs = B ∧
      g'.geoms = g.geoms.map (List.map (tr g.crs B)) ∧
      to_crs_3d validCrs tr g' g.crs = Except.ok g := by
  rcases g with ⟨gc, gg⟩
  dsimp only at hA hinv ⊢
  refine ⟨⟨B, gg.map (List.map (tr gc B))⟩, ?_, rfl, rfl, ?_⟩
  · unfold to_crs_3d
    simp [hA, hB]
  · unfold to_crs_3d
    simp only [hA, hB, not_true_eq_false, if_false, Bool.not_eq_true]
    rw [map_map_inv (tr gc B) (tr B gc) gg hinv]

/-- Witness for C7 at the concrete fixture: the shift-by-one transform on x
from CRS "A" and its inverse, applied to a two-point series, reproduce the
series after the round trip. -/
theorem to_crs_3d_roundtrip_witness :
    to_crs_3d wValid wTr wSeries "B" =
      Except.ok ⟨"B", [[((1 : ℝ), 0, 0), ((2 : ℝ), 2, 3)]]⟩ ∧
    to_crs_3d wValid wTr ⟨"B", [[((1 : ℝ), 0, 0), ((2 : ℝ), 2, 3)]]⟩ "A" =
      Except.ok wSeries := by
  have h := to_crs_3d_roundtrip wValid wTr wSeries "B" rfl rfl
    (by
      intro p hp
      rcases p with ⟨x, y, z⟩
      have hin : wTr "A" "B" ((x, y, z) : Point3) = (x + 1, y, z) := by
        unfold wTr
        rw [if_pos rfl]
      show wTr "B" wSeries.crs (wTr wSeries.crs "B" ((x, y, z) : Point3)) = (x, y, z)
      have hcrs : wSeries.crs = "A" := rfl
      rw [hcrs, hin]
      unfold wTr
      rw [if_neg (by decide : ¬ ("B" : String) = "A")]
      norm_num)
  obtain ⟨g', h1, h2, h3, h4⟩ := h
  rcases g' with ⟨c', gs'⟩
  dsimp only at h2 h3
  subst h2
  have h3' : gs' = [[((1 : ℝ), 0, 0), ((2 : ℝ), 2, 3)]] := by
    rw [h3]
    norm_num [wSeries, wTr]
  subst h3'
  exact ⟨h1, by simpa using h4⟩
